import Mathlib

/-!
Verification of the GnuTLS X.509 CRL core: decode handle accessors,
extension semantic decoders and the bulk list importer, as a shallow
embedding of the CRL slice of the source file (gnutls_x509_crl_init ..
gnutls_x509_crl_list_import).  Machine integers are modelled as Nat/Int;
bytes are Nat values 0..255; caller buffers are Option (List Nat)
(none models a NULL pointer), so that "the buffer is untouched" is
observable as equality of the buffer contents before and after a call.
-/

/-- gnutls error codes used by the CRL core (values from gnutls.h). -/
def GNUTLS_E_SUCCESS : Int := 0

def GNUTLS_E_MEMORY_ERROR : Int := -25

def GNUTLS_E_BASE64_DECODING_ERROR : Int := -34

def GNUTLS_E_CERTIFICATE_ERROR : Int := -43

def GNUTLS_E_INVALID_REQUEST : Int := -50

def GNUTLS_E_SHORT_MEMORY_BUFFER : Int := -51

def GNUTLS_E_REQUESTED_DATA_NOT_AVAILABLE : Int := -56

def GNUTLS_E_ASN1_ELEMENT_NOT_FOUND : Int := -67

def GNUTLS_E_ASN1_DER_ERROR : Int := -69

def GNUTLS_E_ASN1_VALUE_NOT_FOUND : Int := -70

def GNUTLS_E_ASN1_GENERIC_ERROR : Int := -71

def GNUTLS_E_X509_UNSUPPORTED_EXTENSION : Int := -95

/-- libtasn1 return codes (values from libtasn1.h); they are all non-negative. -/
def ASN1_SUCCESS : Int := 0

def ASN1_ELEMENT_NOT_FOUND : Int := 2

def ASN1_DER_ERROR : Int := 4

def ASN1_VALUE_NOT_FOUND : Int := 5

def ASN1_MEM_ERROR : Int := 12

def ASN1_MEM_ALLOC_ERROR : Int := 13

def GNUTLS_X509_CRT_LIST_IMPORT_FAIL_IF_EXCEED : Nat := 1

/-- Modelled from the spec: the error translation of Structure-Adapter failures
(the source calls _gnutls_asn2err, which is outside the given slice; the spec
says adapter decode failures are translated into library errors).  The one
mapping the claims depend on is ASN1_MEM_ERROR to GNUTLS_E_SHORT_MEMORY_BUFFER. -/
def _gnutls_asn2err (c : Int) : Int :=
  if c = ASN1_SUCCESS then GNUTLS_E_SUCCESS
  else if c = ASN1_ELEMENT_NOT_FOUND then GNUTLS_E_ASN1_ELEMENT_NOT_FOUND
  else if c = ASN1_DER_ERROR then GNUTLS_E_ASN1_DER_ERROR
  else if c = ASN1_VALUE_NOT_FOUND then GNUTLS_E_ASN1_VALUE_NOT_FOUND
  else if c = ASN1_MEM_ERROR then GNUTLS_E_SHORT_MEMORY_BUFFER
  else if c = ASN1_MEM_ALLOC_ERROR then GNUTLS_E_MEMORY_ERROR
  else GNUTLS_E_ASN1_GENERIC_ERROR

/-- A decoded ASN.1 leaf value as seen through asn1_read_value: `vlen` is the
length the adapter reports in the in/out length parameter (for BIT STRING
fields such as the CRL signature this is a length in bits, for other fields it
equals the byte count), `vbytes` are the bytes copied into a caller buffer. -/
structure Asn1Value where
  vlen : Nat
  vbytes : List Nat
  deriving DecidableEq, Repr

/-- Result of one asn1_read_value call: the libtasn1 return code, the value of
the in/out length parameter after the call, and the caller buffer after the
call (none when the caller passed NULL). -/
structure ReadResult where
  code : Int
  len : Nat
  buf : Option (List Nat)
  deriving DecidableEq, Repr

/-- Modelled from the spec: the Structure Adapter's size-negotiated read
(asn1_read_value of libtasn1, an external collaborator).  A NULL buffer or a
declared capacity smaller than the value reports ASN1_MEM_ERROR and writes the
required length into the length parameter without touching the buffer;
otherwise the value bytes are copied over the prefix of the buffer. -/
def asn1_read_value_core (v : Option Asn1Value) (buf : Option (List Nat))
    (len : Nat) : ReadResult :=
  match v with
  | none => ⟨ASN1_ELEMENT_NOT_FOUND, len, buf⟩
  | some v =>
    match buf with
    | none => ⟨ASN1_MEM_ERROR, v.vlen, none⟩
    | some b =>
      if len < v.vbytes.length then ⟨ASN1_MEM_ERROR, v.vlen, some b⟩
      else ⟨ASN1_SUCCESS, v.vlen, some (v.vbytes ++ b.drop v.vbytes.length)⟩

/-- One extension of a decoded CRL: extnID (the dotted-decimal OID as an ASCII
byte string), the critical flag, and extnValue (the raw octet value). -/
structure CrlExt where
  extnID : Asn1Value
  critical : Bool
  extnValue : Asn1Value
  deriving DecidableEq, Repr

/-- The decoded PKIX1.CertificateList tree owned by a CRL handle, restricted to
the fields the verified accessors address.  `version` is tbsCertList.version
(absent in a v1 CRL), `signature` the outer BIT STRING, `revokedCount` the
element count of tbsCertList.revokedCertificates (none when the optional
sequence is absent), `crlExtensions` the extension sequence in order. -/
structure CrlTree where
  version : Option Asn1Value
  signature : Option Asn1Value
  revokedCount : Option Nat
  crlExtensions : List CrlExt
  deriving DecidableEq, Repr

/-- The value libtasn1 returns when reading a BOOLEAN: the ASCII string TRUE or
FALSE (the source only inspects the first character). -/
def criticalValue (b : Bool) : Asn1Value :=
  if b then ⟨4, [84, 82, 85, 69]⟩ else ⟨5, [70, 65, 76, 83, 69]⟩

/-- The structural paths the source passes to asn1_read_value on a CRL tree.
The numeric argument carries the 1-based ?n index exactly as the source
formats it into the path string. -/
inductive CrlPath where
  | signature : CrlPath
  | version : CrlPath
  | extnID : Nat → CrlPath
  | extnCritical : Nat → CrlPath
  | extnValue : Nat → CrlPath
  deriving DecidableEq, Repr

/-- Path resolution on the CRL tree (the ?n segments of libtasn1 are 1-based). -/
def crlPathLookup (t : CrlTree) (p : CrlPath) : Option Asn1Value :=
  match p with
  | CrlPath.signature => t.signature
  | CrlPath.version => t.version
  | CrlPath.extnID n => (t.crlExtensions.get? (n - 1)).map CrlExt.extnID
  | CrlPath.extnCritical n =>
      (t.crlExtensions.get? (n - 1)).map (fun e => criticalValue e.critical)
  | CrlPath.extnValue n => (t.crlExtensions.get? (n - 1)).map CrlExt.extnValue

/-- asn1_read_value on the CRL handle's tree. -/
def asn1_read_value (t : CrlTree) (p : CrlPath) (buf : Option (List Nat))
    (len : Nat) : ReadResult :=
  asn1_read_value_core (crlPathLookup t p) buf len

/-- Result of a size-negotiated accessor: the gnutls return value, the size
in/out parameter after the call, and the caller's data buffer after the call. -/
structure BufResult where
  ret : Int
  size : Nat
  buf : Option (List Nat)
  deriving DecidableEq, Repr

/-- gnutls_x509_crl_get_signature (source lines 1058-1104): probe the length of
the BIT STRING with a NULL read (expecting ASN1_MEM_ERROR), reject a bit
length not divisible by 8 with GNUTLS_E_CERTIFICATE_ERROR, report bits/8 via
GNUTLS_E_SHORT_MEMORY_BUFFER when the caller's size is smaller, else copy.
Note that the success path leaves *sizeof_sig untouched, as the source does. -/
def gnutls_x509_crl_get_signature (crl : Option CrlTree) (sig : Option (List Nat))
    (sizeof_sig : Nat) : BufResult :=
  match crl with
  | none => ⟨GNUTLS_E_INVALID_REQUEST, sizeof_sig, sig⟩
  | some t =>
    let r1 := asn1_read_value t CrlPath.signature none 0
    if r1.code ≠ ASN1_MEM_ERROR then ⟨_gnutls_asn2err r1.code, sizeof_sig, sig⟩
    else
      let bits := r1.len
      if bits % 8 ≠ 0 then ⟨GNUTLS_E_CERTIFICATE_ERROR, sizeof_sig, sig⟩
      else
        let len := bits / 8
        if sizeof_sig < len then ⟨GNUTLS_E_SHORT_MEMORY_BUFFER, len, sig⟩
        else
          let r2 := asn1_read_value t CrlPath.signature sig len
          if r2.code ≠ ASN1_SUCCESS then ⟨_gnutls_asn2err r2.code, sizeof_sig, r2.buf⟩
          else ⟨0, sizeof_sig, r2.buf⟩

/-- gnutls_x509_crl_get_version (source lines 1114-1136): read
tbsCertList.version into an 8-byte stack buffer and return version[0] + 1. -/
def gnutls_x509_crl_get_version (crl : Option CrlTree) : Int :=
  match crl with
  | none => GNUTLS_E_INVALID_REQUEST
  | some t =>
    let r := asn1_read_value t CrlPath.version (some (List.replicate 8 0)) 8
    if r.code ≠ ASN1_SUCCESS then _gnutls_asn2err r.code
    else
      match r.buf with
      | some b => Int.ofNat (b.headD 0) + 1
      | none => GNUTLS_E_ASN1_GENERIC_ERROR

/-- asn1_number_of_elements on tbsCertList.revokedCertificates: an absent
optional sequence is ASN1_ELEMENT_NOT_FOUND, a present one reports its count. -/
def asn1_number_of_elements (t : CrlTree) : Int × Nat :=
  match t.revokedCount with
  | none => (ASN1_ELEMENT_NOT_FOUND, 0)
  | some n => (ASN1_SUCCESS, n)

/-- gnutls_x509_crl_get_crt_count (source lines 1189-1212): a failing element
count is turned into 0 ("no certificates"), not an error. -/
def gnutls_x509_crl_get_crt_count (crl : Option CrlTree) : Int :=
  match crl with
  | none => GNUTLS_E_INVALID_REQUEST
  | some t =>
    let rc := asn1_number_of_elements t
    if rc.1 ≠ ASN1_SUCCESS then 0 else Int.ofNat rc.2

/-- gnutls_x509_crl_get_extension_info (source lines 1748-1799): read
tbsCertList.crlExtensions.?(indx+1).extnID with size negotiation, map
ASN1_ELEMENT_NOT_FOUND to GNUTLS_E_REQUESTED_DATA_NOT_AVAILABLE, then read the
critical BOOLEAN into a 10-byte local buffer.  The critical out-parameter is
not modelled (no claim inspects it); the read that produces it is. -/
def gnutls_x509_crl_get_extension_info (crl : Option CrlTree) (indx : Nat)
    (oid : Option (List Nat)) (sizeof_oid : Nat) : BufResult :=
  match crl with
  | none => ⟨GNUTLS_E_INVALID_REQUEST, sizeof_oid, oid⟩
  | some t =>
    let r := asn1_read_value t (CrlPath.extnID (indx + 1)) oid sizeof_oid
    if r.code = ASN1_ELEMENT_NOT_FOUND then
      ⟨GNUTLS_E_REQUESTED_DATA_NOT_AVAILABLE, r.len, r.buf⟩
    else if r.code ≠ ASN1_SUCCESS then ⟨_gnutls_asn2err r.code, r.len, r.buf⟩
    else
      let r2 := asn1_read_value t (CrlPath.extnCritical (indx + 1))
        (some (List.replicate 10 0)) 10
      if r2.code ≠ ASN1_SUCCESS then ⟨_gnutls_asn2err r2.code, r.len, r.buf⟩
      else ⟨0, r.len, r.buf⟩

/-- gnutls_x509_crl_get_extension_data (source lines 1824-1853): read
tbsCertList.crlExtensions.?(indx+1).extnValue.  The source checks
`result < 0` after mapping ASN1_ELEMENT_NOT_FOUND, and libtasn1 codes are
non-negative, so an ASN1_MEM_ERROR (too-small buffer) falls through to the
success return; the embedding preserves that comparison verbatim. -/
def gnutls_x509_crl_get_extension_data (crl : Option CrlTree) (indx : Nat)
    (data : Option (List Nat)) (sizeof_data : Nat) : BufResult :=
  match crl with
  | none => ⟨GNUTLS_E_INVALID_REQUEST, sizeof_data, data⟩
  | some t =>
    let r := asn1_read_value t (CrlPath.extnValue (indx + 1)) data sizeof_data
    if r.code = ASN1_ELEMENT_NOT_FOUND then
      ⟨GNUTLS_E_REQUESTED_DATA_NOT_AVAILABLE, r.len, r.buf⟩
    else if r.code < 0 then ⟨_gnutls_asn2err r.code, r.len, r.buf⟩
    else ⟨0, r.len, r.buf⟩

/-- The decoded PKIX1.AuthorityKeyIdentifier tree built by _get_authority_key_id
from the raw extension value: the optional plain keyIdentifier octet string.
The authorityCertIssuer GeneralNames and authorityCertSerialNumber fields are
reached only through the external GeneralName parser, which is abstracted in
the Adapter below. -/
structure AkiTree where
  keyIdentifier : Option Asn1Value
  deriving DecidableEq, Repr

/-- asn1_read_value on the nested AuthorityKeyIdentifier tree for the path
keyIdentifier: a structurally absent field is ASN1_VALUE_NOT_FOUND. -/
def asn1_read_value_aki (c2 : AkiTree) (buf : Option (List Nat)) (len : Nat) :
    ReadResult :=
  match c2.keyIdentifier with
  | none => ⟨ASN1_VALUE_NOT_FOUND, len, buf⟩
  | some v => asn1_read_value_core (some v) buf len

/-- The external collaborators of the CRL core, per the spec's component
boundary: the PEM base64 codec, the Structure Adapter's DER decoders (errors
are libtasn1 codes, fed through _gnutls_asn2err by the callers that the
source shows doing so), and the external GeneralName parser. -/
structure Adapter where
  fbase64_decode : List Nat → Except Int (List Nat)
  asn1_der_decoding : List Nat → Except Int CrlTree
  akiDecode : List Nat → Except Int AkiTree
  parseGeneralName : AkiTree → Nat → Int

/-- DER and PEM encoding tags (gnutls_x509_crt_fmt_t). -/
inductive Fmt where
  | der : Fmt
  | pem : Fmt
  deriving DecidableEq, Repr

/-- gnutls_x509_crl_import (source lines 808-858): for PEM first run the base64
codec with the X509 CRL header, then DER-decode into the handle's tree,
translating adapter failures.  The handle's new tree is returned; allocation
of the empty handle (gnutls_x509_crl_init) is modelled as succeeding. -/
def gnutls_x509_crl_import (A : Adapter) (data : List Nat) (format : Fmt) :
    Except Int CrlTree :=
  match format with
  | Fmt.pem =>
    match A.fbase64_decode data with
    | Except.error e => Except.error e
    | Except.ok der =>
      match A.asn1_der_decoding der with
      | Except.error ec => Except.error (_gnutls_asn2err ec)
      | Except.ok t => Except.ok t
  | Fmt.der =>
    match A.asn1_der_decoding data with
    | Except.error ec => Except.error (_gnutls_asn2err ec)
    | Except.ok t => Except.ok t

/-- The dotted-decimal OID 2.5.29.35 (Authority Key Identifier) as ASCII. -/
def oidAKI : List Nat := [50, 46, 53, 46, 50, 57, 46, 51, 53]

/-- The dotted-decimal OID 2.5.29.20 (CRL Number) as ASCII. -/
def oidCRLNumber : List Nat := [50, 46, 53, 46, 50, 57, 46, 50, 48]

/-- Modelled from the spec: _gnutls_x509_crl_get_extension (outside the given
slice) is the OID-addressed raw-extension lookup of section 4.2 — search the
extension sequence by OID, skipping `idx` earlier occurrences, failing with
RequestedDataNotAvailable when exhausted; it hands back the raw value and the
critical flag. -/
def _gnutls_x509_crl_get_extension (t : CrlTree) (oid : List Nat) (idx : Nat) :
    Except Int (Asn1Value × Bool) :=
  match (t.crlExtensions.filter (fun e => e.extnID.vbytes == oid)).get? idx with
  | none => Except.error GNUTLS_E_REQUESTED_DATA_NOT_AVAILABLE
  | some e => Except.ok (e.extnValue, e.critical)

/-- _get_authority_key_id (source lines 1448-1496): locate extension 2.5.29.35,
fail with GNUTLS_E_REQUESTED_DATA_NOT_AVAILABLE when its value is empty, then
DER-decode the value as a PKIX1.AuthorityKeyIdentifier into a fresh tree
(asn1_create_element on the fixed grammar is modelled as succeeding). -/
def _get_authority_key_id (A : Adapter) (cert : Option CrlTree) :
    Except Int AkiTree :=
  match cert with
  | none => Except.error GNUTLS_E_INVALID_REQUEST
  | some t =>
    match _gnutls_x509_crl_get_extension t oidAKI 0 with
    | Except.error e => Except.error e
    | Except.ok idc =>
      if idc.1.vbytes.length = 0 then
        Except.error GNUTLS_E_REQUESTED_DATA_NOT_AVAILABLE
      else
        match A.akiDecode idc.1.vbytes with
        | Except.error ec => Except.error (_gnutls_asn2err ec)
        | Except.ok c2 => Except.ok c2

/-- gnutls_x509_crl_get_authority_key_id (source lines 1592-1620): read the
plain keyIdentifier out of the nested AKI tree; a structurally absent field
(the GeneralName/serial form) is GNUTLS_E_X509_UNSUPPORTED_EXTENSION. -/
def gnutls_x509_crl_get_authority_key_id (A : Adapter) (crl : Option CrlTree)
    (id : Option (List Nat)) (id_size : Nat) : BufResult :=
  match _get_authority_key_id A crl with
  | Except.error e => ⟨e, id_size, id⟩
  | Except.ok c2 =>
    let r := asn1_read_value_aki c2 id id_size
    if r.code = ASN1_VALUE_NOT_FOUND ∨ r.code = ASN1_ELEMENT_NOT_FOUND then
      ⟨GNUTLS_E_X509_UNSUPPORTED_EXTENSION, r.len, r.buf⟩
    else if r.code ≠ ASN1_SUCCESS then ⟨_gnutls_asn2err r.code, r.len, r.buf⟩
    else ⟨0, r.len, r.buf⟩

/-- gnutls_x509_crl_get_authority_key_gn_serial (source lines 1521-1568) in its
serial
= NULL shape: build the nested AKI tree and hand it to the external
GeneralName parser.  The optional authorityCertSerialNumber extraction is not
exercised by any claim and is omitted with the NULL-serial call shape. -/
def gnutls_x509_crl_get_authority_key_gn_serial (A : Adapter)
    (crl : Option CrlTree) (seq : Nat) : Int :=
  match _get_authority_key_id A crl with
  | Except.error e => e
  | Except.ok c2 =>
    let ret := A.parseGeneralName c2 seq
    if ret < 0 then ret else 0

/-- Modelled from the spec: _gnutls_x509_ext_extract_number (outside the given
slice) interprets the raw CRL Number value as a big-endian unsigned integer
and copies it out via the size-negotiation contract of section 4.2 (the DER
INTEGER unwrapping is abstracted: the copied bytes are the raw value). -/
def _gnutls_x509_ext_extract_number (buf : Option (List Nat)) (ret_size : Nat)
    (id : List Nat) : BufResult :=
  match buf with
  | none => ⟨GNUTLS_E_SHORT_MEMORY_BUFFER, id.length, none⟩
  | some b =>
    if ret_size < id.length then ⟨GNUTLS_E_SHORT_MEMORY_BUFFER, id.length, some b⟩
    else ⟨0, id.length, some (id ++ b.drop id.length)⟩

/-- gnutls_x509_crl_get_number (source lines 1638-1681): note that the source
first clears the caller's buffer (memset(ret, 0, *ret_size)) — or zeroes
*ret_size when the buffer is NULL — before looking up extension 2.5.29.20, so
every failure past that point leaves the buffer zeroed, not untouched. -/
def gnutls_x509_crl_get_number (crl : Option CrlTree) (buf : Option (List Nat))
    (ret_size : Nat) : BufResult :=
  match crl with
  | none => ⟨GNUTLS_E_INVALID_REQUEST, ret_size, buf⟩
  | some t =>
    let buf0 : Option (List Nat) :=
      match buf with
      | some _ => some (List.replicate ret_size 0)
      | none => none
    let ret_size0 : Nat :=
      match buf with
      | some _ => ret_size
      | none => 0
    match _gnutls_x509_crl_get_extension t oidCRLNumber 0 with
    | Except.error e => ⟨e, ret_size0, buf0⟩
    | Except.ok idc =>
      if idc.1.vbytes.length = 0 then
        ⟨GNUTLS_E_REQUESTED_DATA_NOT_AVAILABLE, ret_size0, buf0⟩
      else
        let r := _gnutls_x509_ext_extract_number buf0 ret_size0 idc.1.vbytes
        if r.ret < 0 then r else ⟨0, r.size, r.buf⟩

/-- Byte-wise prefix test (the memcmp step of a memmem scan). -/
def bytesMatch : List Nat → List Nat → Bool
  | [], _ => true
  | _ :: _, [] => false
  | a :: as, b :: bs => (a == b) && bytesMatch as bs

/-- memmem over byte lists: index of the first occurrence of `needle` in
`hay`, scanning left to right as the C library function does. -/
def memmem (hay needle : List Nat) : Option Nat :=
  if bytesMatch needle hay then some 0
  else
    match hay with
    | [] => none
    | _ :: t => (memmem t needle).map (fun i => i + 1)

/-- Modelled from the spec: the PEM boundary marker for X509 CRL blocks
(PEM_CRL_SEP, the literal "-----BEGIN X509 CRL", defined outside the slice). -/
def PEM_CRL_SEP : List Nat :=
  [45, 45, 45, 45, 45, 66, 69, 71, 73, 78, 32, 88, 53, 48, 57, 32, 67, 82, 76]

/-- Observable outcome of one gnutls_x509_crl_list_import call: the return
value, the value of *crl_max on return, how many handle slots of the caller's
array were written by gnutls_x509_crl_init during the call, and the slot
indices of the handles created during the call that are still allocated (not
deinitialized) when the call returns. -/
structure ListImportResult where
  ret : Int
  crl_max : Nat
  inited : Nat
  live : List Nat
  deriving DecidableEq, Repr

/-- The error label of gnutls_x509_crl_list_import (source lines 2040-2043):
deinitialize crls[j] for every j < count; handles at slots ≥ count survive. -/
def listImportErrorTeardown (live : List Nat) (count : Nat) : List Nat :=
  live.filter (fun j => count ≤ j)

/-- The PEM do-while scan of gnutls_x509_crl_list_import (source lines
1984-2038), embedded over the suffix `s` of the input that starts at the
current marker (the source keeps an absolute pointer ptr into data; `s` is
data from ptr to the end, which is exactly the datum handed to
gnutls_x509_crl_import, and the next-marker search over ptr+1.. is the search
over s.drop 1).  When the import of a block fails the error label tears down
only the slots below `count`, so the slot just initialized survives. -/
def list_import_loop (A : Adapter) (cap flags : Nat) (s : List Nat)
    (count : Nat) (nocopy : Bool) (inited : Nat) (live : List Nat) :
    ListImportResult :=
  if cap ≤ count ∧ flags &&& GNUTLS_X509_CRT_LIST_IMPORT_FAIL_IF_EXCEED = 0 then
    ⟨Int.ofNat count, count, inited, live⟩
  else
    let nocopy1 := nocopy || decide (cap ≤ count)
    if nocopy1 then
      match h : memmem (s.drop 1) PEM_CRL_SEP with
      | some off =>
        list_import_loop A cap flags (s.drop (1 + off)) (count + 1) nocopy1
          inited live
      | none =>
        ⟨if nocopy1 then GNUTLS_E_SHORT_MEMORY_BUFFER else Int.ofNat (count + 1),
         count + 1, inited, live⟩
    else
      match gnutls_x509_crl_import A s Fmt.pem with
      | Except.error ret =>
        ⟨ret, cap, inited + 1, listImportErrorTeardown (live ++ [count]) count⟩
      | Except.ok _ =>
        match h : memmem (s.drop 1) PEM_CRL_SEP with
        | some off =>
          list_import_loop A cap flags (s.drop (1 + off)) (count + 1) nocopy1
            (inited + 1) (live ++ [count])
        | none =>
          ⟨if nocopy1 then GNUTLS_E_SHORT_MEMORY_BUFFER else Int.ofNat (count + 1),
           count + 1, inited + 1, live ++ [count]⟩
termination_by s.length
decreasing_by
  all_goals
    cases s with
    | nil =>
      rw [show memmem (List.drop 1 ([] : List Nat)) PEM_CRL_SEP = none from rfl] at h
      exact Option.noConfusion h
    | cons a t =>
      simp only [List.length_drop, List.length_cons]
      omega

/-- gnutls_x509_crl_list_import (source lines 1932-2044). -/
def gnutls_x509_crl_list_import (A : Adapter) (crl_max : Nat) (data : List Nat)
    (format : Fmt) (flags : Nat) : ListImportResult :=
  match format with
  | Fmt.der =>
    if crl_max < 1 then ⟨GNUTLS_E_SHORT_MEMORY_BUFFER, 1, 0, []⟩
    else
      match gnutls_x509_crl_import A data Fmt.der with
      | Except.error ret => ⟨ret, crl_max, 1, listImportErrorTeardown [0] 1⟩
      | Except.ok _ => ⟨1, 1, 1, [0]⟩
  | Fmt.pem =>
    match memmem data PEM_CRL_SEP with
    | none => ⟨GNUTLS_E_BASE64_DECODING_ERROR, crl_max, 0, []⟩
    | some p => list_import_loop A crl_max flags (data.drop p) 0 false 0 []

/-- Observable outcome of gnutls_x509_crl_list_import2: the return value, the
value written to *size, and the (capacity-in, flags) argument pair of each
inner gnutls_x509_crl_list_import call in order, recording which flags the
wrapper actually passes down. -/
structure ListImport2Result where
  ret : Int
  size : Nat
  calls : List (Nat × Nat)
  deriving DecidableEq, Repr

/-- gnutls_x509_crl_list_import2 (source lines 1874-1912): allocate 1024 slots
(gnutls_malloc is modelled as succeeding), call the fixed-capacity importer
with GNUTLS_X509_CRT_LIST_IMPORT_FAIL_IF_EXCEED; when it reports
GNUTLS_E_SHORT_MEMORY_BUFFER, reallocate to the updated capacity and call it
once more — with the caller-supplied `flags`, exactly as the source does. -/
def gnutls_x509_crl_list_import2 (A : Adapter) (data : List Nat) (format : Fmt)
    (flags : Nat) : ListImport2Result :=
  let init := 1024
  let r1 := gnutls_x509_crl_list_import A init data format
    GNUTLS_X509_CRT_LIST_IMPORT_FAIL_IF_EXCEED
  if r1.ret = GNUTLS_E_SHORT_MEMORY_BUFFER then
    let r2 := gnutls_x509_crl_list_import A r1.crl_max data format flags
    if r2.ret < 0 then
      ⟨r2.ret, 0,
       [(init, GNUTLS_X509_CRT_LIST_IMPORT_FAIL_IF_EXCEED), (r1.crl_max, flags)]⟩
    else
      ⟨0, r2.crl_max,
       [(init, GNUTLS_X509_CRT_LIST_IMPORT_FAIL_IF_EXCEED), (r1.crl_max, flags)]⟩
  else
    if r1.ret < 0 then
      ⟨r1.ret, 0, [(init, GNUTLS_X509_CRT_LIST_IMPORT_FAIL_IF_EXCEED)]⟩
    else
      ⟨0, r1.crl_max, [(init, GNUTLS_X509_CRT_LIST_IMPORT_FAIL_IF_EXCEED)]⟩

/-- A PEM input consisting of n back-to-back X509 CRL boundary markers (each
block is just the marker; the bytes between markers belong to the preceding
block, and here there are none). -/
def blocks : Nat → List Nat
  | 0 => []
  | n + 1 => PEM_CRL_SEP ++ blocks n

/-- The slot indices s, s+1, ..., s+n-1. -/
def idsFrom (s : Nat) : Nat → List Nat
  | 0 => []
  | n + 1 => s :: idsFrom (s + 1) n

/-- An empty decoded CertificateList, used as the adapter's decode output in
concrete scenarios. -/
def emptyCrlTree : CrlTree := ⟨none, none, none, []⟩

/-- An adapter on which every PEM block decodes successfully. -/
def adapterOK : Adapter :=
  ⟨fun _ => Except.ok [], fun _ => Except.ok emptyCrlTree,
   fun _ => Except.error ASN1_DER_ERROR, fun _ _ => 0⟩

/-- An adapter on which every DER decode fails with ASN1_DER_ERROR, so every
block import fails. -/
def adapterBadDer : Adapter :=
  ⟨fun _ => Except.ok [], fun _ => Except.error ASN1_DER_ERROR,
   fun _ => Except.error ASN1_DER_ERROR, fun _ _ => 0⟩

/-- A handle tree with one 16-bit signature and one non-CRL-Number extension
(OID 2.5.29.15), used for concrete size-negotiation scenarios. -/
def tSigExt : CrlTree :=
  ⟨none, some ⟨16, [170, 187]⟩, none,
   [⟨⟨9, [50, 46, 53, 46, 50, 57, 46, 49, 53]⟩, false, ⟨3, [1, 2, 3]⟩⟩]⟩

/-- A handle tree whose encoded version field holds the single byte 1. -/
def tVersion1 : CrlTree := ⟨some ⟨1, [1]⟩, none, none, []⟩

/-- A handle tree with a 9-bit (non-byte-aligned) signature. -/
def tSigOdd : CrlTree := ⟨none, some ⟨9, [1]⟩, none, []⟩

/-- A handle tree with three revoked-certificate entries. -/
def tRevoked3 : CrlTree := ⟨none, none, some 3, []⟩

/-- A handle tree whose AKI extension value decodes (under adapterAKI) to the
GeneralName/serial form, without a plain keyIdentifier. -/
def tAkiGN : CrlTree := ⟨none, none, none, [⟨⟨9, oidAKI⟩, false, ⟨1, [1]⟩⟩]⟩

/-- A handle tree whose AKI extension value decodes (under adapterAKI) to a
plain keyIdentifier. -/
def tAkiKID : CrlTree := ⟨none, none, none, [⟨⟨9, oidAKI⟩, false, ⟨1, [2]⟩⟩]⟩

/-- A handle tree whose AKI extension is present with an empty value. -/
def tAkiEmpty : CrlTree := ⟨none, none, none, [⟨⟨9, oidAKI⟩, false, ⟨0, []⟩⟩]⟩

/-- An adapter whose AuthorityKeyIdentifier decoder maps the raw value [1] to
the GeneralName/serial form (no keyIdentifier) and [2] to a plain
keyIdentifier [9]; its GeneralName parser succeeds on sequence number 0. -/
def adapterAKI : Adapter :=
  ⟨fun _ => Except.ok [], fun _ => Except.ok emptyCrlTree,
   fun v =>
     if v = [1] then Except.ok ⟨none⟩
     else if v = [2] then Except.ok ⟨some ⟨1, [9]⟩⟩
     else Except.error ASN1_DER_ERROR,
   fun _ _ => 0⟩

theorem memmem_sep_head (x : List Nat) :
    memmem (PEM_CRL_SEP ++ x) PEM_CRL_SEP = some 0 := rfl

theorem memmem_sep_tail_zero :
    memmem ((PEM_CRL_SEP ++ blocks 0).drop 1) PEM_CRL_SEP = none := rfl

theorem memmem_sep_tail_succ (k : Nat) :
    memmem ((PEM_CRL_SEP ++ blocks (k + 1)).drop 1) PEM_CRL_SEP = some 18 := rfl

theorem sep_append_drop19 (x : List Nat) :
    (PEM_CRL_SEP ++ x).drop (1 + 18) = x := rfl

theorem blocks_succ (k : Nat) : blocks (k + 1) = PEM_CRL_SEP ++ blocks k := rfl

theorem import_adapterOK (s : List Nat) :
    gnutls_x509_crl_import adapterOK s Fmt.pem = Except.ok emptyCrlTree := rfl

theorem idsFrom_one (s : Nat) : idsFrom s 1 = [s] := rfl

theorem loop_nocopy_strict (A : Adapter) (cap : Nat) :
    ∀ (k count : Nat) (nocopy : Bool) (inited : Nat) (live : List Nat),
      (nocopy = true ∨ cap ≤ count) →
      list_import_loop A cap 1 (PEM_CRL_SEP ++ blocks k) count nocopy inited live =
        ⟨GNUTLS_E_SHORT_MEMORY_BUFFER, count + k + 1, inited, live⟩ := by
  intro k
  induction k with
  | zero =>
    intro count nocopy inited live hn
    have hno : (nocopy || decide (cap ≤ count)) = true := by
      rcases hn with h | h
      · simp [h]
      · simp [h]
    rw [list_import_loop.eq_def]
    rw [if_neg (by simp [GNUTLS_X509_CRT_LIST_IMPORT_FAIL_IF_EXCEED])]
    simp only [hno, if_true, memmem_sep_tail_zero]
  | succ k ih =>
    intro count nocopy inited live hn
    have hno : (nocopy || decide (cap ≤ count)) = true := by
      rcases hn with h | h
      · simp [h]
      · simp [h]
    rw [list_import_loop.eq_def]
    rw [if_neg (by simp [GNUTLS_X509_CRT_LIST_IMPORT_FAIL_IF_EXCEED])]
    simp only [hno, if_true, memmem_sep_tail_succ, sep_append_drop19]
    rw [blocks_succ k]
    rw [ih (count + 1) true inited live (Or.inl rfl)]
    have e1 : count + 1 + k + 1 = count + (k + 1) + 1 := by omega
    rw [e1]

theorem loop_copy_strict (cap : Nat) :
    ∀ (k count inited : Nat) (live : List Nat), count < cap →
      list_import_loop adapterOK cap 1 (PEM_CRL_SEP ++ blocks k) count false
          inited live =
        if count + k < cap then
          ⟨Int.ofNat (count + k + 1), count + k + 1, inited + (k + 1),
           live ++ idsFrom count (k + 1)⟩
        else
          ⟨GNUTLS_E_SHORT_MEMORY_BUFFER, count + k + 1, inited + (cap - count),
           live ++ idsFrom count (cap - count)⟩ := by
  intro k
  induction k with
  | zero =>
    intro count inited live hlt
    have hno : (false || decide (cap ≤ count)) = false := by
      simp only [Bool.false_or, decide_eq_false_iff_not]
      omega
    rw [list_import_loop.eq_def]
    rw [if_neg (by simp [GNUTLS_X509_CRT_LIST_IMPORT_FAIL_IF_EXCEED])]
    simp only [hno, Bool.false_eq_true, if_false, import_adapterOK,
      memmem_sep_tail_zero]
    rw [if_pos (by omega : count + 0 < cap)]
    simp [idsFrom]
  | succ k ih =>
    intro count inited live hlt
    have hno : (false || decide (cap ≤ count)) = false := by
      simp only [Bool.false_or, decide_eq_false_iff_not]
      omega
    rw [list_import_loop.eq_def]
    rw [if_neg (by simp [GNUTLS_X509_CRT_LIST_IMPORT_FAIL_IF_EXCEED])]
    simp only [hno, Bool.false_eq_true, if_false, import_adapterOK,
      memmem_sep_tail_succ, sep_append_drop19]
    rw [blocks_succ k]
    by_cases hc : count + 1 < cap
    · rw [ih (count + 1) (inited + 1) (live ++ [count]) hc]
      have e1 : count + 1 + k = count + (k + 1) := by omega
      rw [e1]
      by_cases h2 : count + (k + 1) < cap
      · rw [if_pos h2, if_pos h2]
        have e3 : inited + 1 + (k + 1) = inited + (k + 1 + 1) := by omega
        rw [e3]
        have e4 : idsFrom count (k + 1 + 1) =
            count :: idsFrom (count + 1) (k + 1) := rfl
        rw [e4]
        simp [List.append_assoc]
      · rw [if_neg h2, if_neg h2]
        have e2 : cap - count = (cap - (count + 1)) + 1 := by omega
        rw [e2]
        have e3 : inited + 1 + (cap - (count + 1)) =
            inited + (cap - (count + 1) + 1) := by omega
        rw [e3]
        have e4 : idsFrom count (cap - (count + 1) + 1) =
            count :: idsFrom (count + 1) (cap - (count + 1)) := rfl
        rw [e4]
        simp [List.append_assoc]
    · rw [loop_nocopy_strict adapterOK cap k (count + 1) false (inited + 1)
        (live ++ [count]) (Or.inr (by omega))]
      rw [if_neg (by omega : ¬ (count + (k + 1) < cap))]
      have e2 : cap - count = 1 := by omega
      rw [e2, idsFrom_one]
      have e5 : count + 1 + k + 1 = count + (k + 1) + 1 := by omega
      rw [e5]

theorem loop_copy_nonstrict (cap : Nat) :
    ∀ (k count inited : Nat) (live : List Nat), count + k < cap →
      list_import_loop adapterOK cap 0 (PEM_CRL_SEP ++ blocks k) count false
          inited live =
        ⟨Int.ofNat (count + k + 1), count + k + 1, inited + (k + 1),
         live ++ idsFrom count (k + 1)⟩ := by
  intro k
  induction k with
  | zero =>
    intro count inited live hlt
    have hno : (false || decide (cap ≤ count)) = false := by
      simp only [Bool.false_or, decide_eq_false_iff_not]
      omega
    rw [list_import_loop.eq_def]
    rw [if_neg (by simp only [GNUTLS_X509_CRT_LIST_IMPORT_FAIL_IF_EXCEED,
      Nat.zero_and, and_true]; omega)]
    simp only [hno, Bool.false_eq_true, if_false, import_adapterOK,
      memmem_sep_tail_zero]
    simp [idsFrom]
  | succ k ih =>
    intro count inited live hlt
    have hno : (false || decide (cap ≤ count)) = false := by
      simp only [Bool.false_or, decide_eq_false_iff_not]
      omega
    rw [list_import_loop.eq_def]
    rw [if_neg (by simp only [GNUTLS_X509_CRT_LIST_IMPORT_FAIL_IF_EXCEED,
      Nat.zero_and, and_true]; omega)]
    simp only [hno, Bool.false_eq_true, if_false, import_adapterOK,
      memmem_sep_tail_succ, sep_append_drop19]
    rw [blocks_succ k]
    rw [ih (count + 1) (inited + 1) (live ++ [count]) (by omega)]
    have e1 : count + 1 + k + 1 = count + (k + 1) + 1 := by omega
    rw [e1]
    have e3 : inited + 1 + (k + 1) = inited + (k + 1 + 1) := by omega
    rw [e3]
    have e4 : idsFrom count (k + 1 + 1) = count :: idsFrom (count + 1) (k + 1) := rfl
    rw [e4]
    simp [List.append_assoc]

theorem memmem_sep_self : memmem PEM_CRL_SEP PEM_CRL_SEP = some 0 := rfl

theorem list_import_strict_1025 :
    gnutls_x509_crl_list_import adapterOK 1024 (blocks 1025) Fmt.pem
      GNUTLS_X509_CRT_LIST_IMPORT_FAIL_IF_EXCEED =
    ⟨GNUTLS_E_SHORT_MEMORY_BUFFER, 1025, 1024, idsFrom 0 1024⟩ := by
  rw [show blocks 1025 = PEM_CRL_SEP ++ blocks 1024 from rfl]
  simp only [gnutls_x509_crl_list_import, GNUTLS_X509_CRT_LIST_IMPORT_FAIL_IF_EXCEED,
    memmem_sep_head, List.drop_zero]
  rw [loop_copy_strict 1024 1024 0 0 [] (by norm_num)]
  rw [if_neg (by norm_num)]
  simp

theorem list_import_nonstrict_1025 :
    gnutls_x509_crl_list_import adapterOK 1025 (blocks 1025) Fmt.pem 0 =
    ⟨Int.ofNat 1025, 1025, 1025, idsFrom 0 1025⟩ := by
  rw [show blocks 1025 = PEM_CRL_SEP ++ blocks 1024 from rfl]
  simp only [gnutls_x509_crl_list_import, memmem_sep_head, List.drop_zero]
  rw [loop_copy_nonstrict 1025 1024 0 0 [] (by norm_num)]
  simp

theorem list_import_decode_fail_leak :
    gnutls_x509_crl_list_import adapterBadDer 10 PEM_CRL_SEP Fmt.pem 0 =
    ⟨GNUTLS_E_ASN1_DER_ERROR, 10, 1, [0]⟩ := by
  simp only [gnutls_x509_crl_list_import, memmem_sep_self, List.drop_zero]
  rw [list_import_loop.eq_def]
  rw [if_neg (by decide)]
  have hno : (false || decide (10 ≤ 0)) = false := by decide
  simp only [hno, Bool.false_eq_true, if_false]
  have himp : gnutls_x509_crl_import adapterBadDer PEM_CRL_SEP Fmt.pem =
      Except.error GNUTLS_E_ASN1_DER_ERROR := rfl
  simp only [himp]
  decide

theorem list_import_strict_cap_leak :
    gnutls_x509_crl_list_import adapterOK 1 (blocks 2) Fmt.pem 1 =
    ⟨GNUTLS_E_SHORT_MEMORY_BUFFER, 2, 1, [0]⟩ := by
  rw [show blocks 2 = PEM_CRL_SEP ++ blocks 1 from rfl]
  simp only [gnutls_x509_crl_list_import, memmem_sep_head, List.drop_zero]
  rw [loop_copy_strict 1 1 0 0 [] (by norm_num)]
  rw [if_neg (by norm_num)]
  simp [idsFrom]

/-- C1: on an error return of the bulk importer, handles initialized during the
call survive.  Two PEM scenarios: (1) a single marker whose block fails to
DER-decode — the error teardown frees only slots below `count`, leaving the
just-initialized slot 0 allocated while an error is returned; (2) two valid
blocks, capacity 1, strict flag — the call returns
GNUTLS_E_SHORT_MEMORY_BUFFER with the handle in slot 0 still allocated.  Both
contradict the claim that an erroring call leaves zero surviving handles. -/
theorem C1_rollback_leak :
    ((gnutls_x509_crl_list_import adapterBadDer 10 PEM_CRL_SEP Fmt.pem 0).ret < 0 ∧
     (gnutls_x509_crl_list_import adapterBadDer 10 PEM_CRL_SEP Fmt.pem 0).live = [0]) ∧
    ((gnutls_x509_crl_list_import adapterOK 1 (blocks 2) Fmt.pem 1).ret =
       GNUTLS_E_SHORT_MEMORY_BUFFER ∧
     (gnutls_x509_crl_list_import adapterOK 1 (blocks 2) Fmt.pem 1).live = [0]) := by
  rw [list_import_decode_fail_leak, list_import_strict_cap_leak]
  refine ⟨⟨by decide, rfl⟩, rfl, rfl⟩

/-- C10: a PEM import whose input contains no X509 CRL boundary marker fails
with GNUTLS_E_BASE64_DECODING_ERROR before any handle is initialized, leaving
the capacity in/out parameter and the caller's array untouched. -/
theorem C10_no_marker (A : Adapter) (cap : Nat) (data : List Nat) (flags : Nat)
    (h : memmem data PEM_CRL_SEP = none) :
    gnutls_x509_crl_list_import A cap data Fmt.pem flags =
      ⟨GNUTLS_E_BASE64_DECODING_ERROR, cap, 0, []⟩ := by
  simp only [gnutls_x509_crl_list_import, h]

/-- Witness for C10 at the concrete marker-free input "hello". -/
theorem C10_no_marker_witness :
    memmem [104, 101, 108, 108, 111] PEM_CRL_SEP = none ∧
    gnutls_x509_crl_list_import adapterOK 5 [104, 101, 108, 108, 111] Fmt.pem 0 =
      ⟨GNUTLS_E_BASE64_DECODING_ERROR, 5, 0, []⟩ :=
  ⟨by decide, C10_no_marker adapterOK 5 [104, 101, 108, 108, 111] 0 (by decide)⟩

/-- C8: the DER arm of the bulk importer.  A capacity below 1 fails
ShortBuffer-style with the capacity out-parameter set to 1 and no handle
created; with capacity at least 1 and a decodable buffer exactly one handle is
created and 1 is returned with the capacity set to 1; on no input does the DER
arm leave more than one live handle. -/
theorem C8_der_exactly_one (A : Adapter) (cap : Nat) (data : List Nat) (flags : Nat) :
    (cap < 1 → gnutls_x509_crl_list_import A cap data Fmt.der flags =
       ⟨GNUTLS_E_SHORT_MEMORY_BUFFER, 1, 0, []⟩) ∧
    (1 ≤ cap → ∀ tr, A.asn1_der_decoding data = Except.ok tr →
       gnutls_x509_crl_list_import A cap data Fmt.der flags = ⟨1, 1, 1, [0]⟩) ∧
    (gnutls_x509_crl_list_import A cap data Fmt.der flags).live.length ≤ 1 := by
  refine ⟨?_, ?_, ?_⟩
  · intro h
    simp only [gnutls_x509_crl_list_import, if_pos h]
  · intro h tr htr
    simp only [gnutls_x509_crl_list_import]
    rw [if_neg (by omega)]
    simp only [gnutls_x509_crl_import, htr]
  · simp only [gnutls_x509_crl_list_import]
    by_cases h : cap < 1
    · rw [if_pos h]
      decide
    · rw [if_neg h]
      cases hdec : gnutls_x509_crl_import A data Fmt.der with
      | error e =>
        simp only [hdec]
        decide
      | ok tr =>
        simp only [hdec]
        decide

/-- Witness for C8 at capacity 0 and at capacity 3 with a decodable buffer. -/
theorem C8_der_exactly_one_witness :
    ((0 : Nat) < 1 ∧ gnutls_x509_crl_list_import adapterOK 0 [] Fmt.der 0 =
       ⟨GNUTLS_E_SHORT_MEMORY_BUFFER, 1, 0, []⟩) ∧
    ((1 : Nat) ≤ 3 ∧ adapterOK.asn1_der_decoding [] = Except.ok emptyCrlTree ∧
       gnutls_x509_crl_list_import adapterOK 3 [] Fmt.der 0 = ⟨1, 1, 1, [0]⟩) ∧
    (gnutls_x509_crl_list_import adapterOK 3 [] Fmt.der 0).live.length ≤ 1 :=
  ⟨⟨by decide, (C8_der_exactly_one adapterOK 0 [] 0).1 (by decide)⟩,
   ⟨by decide, rfl,
    (C8_der_exactly_one adapterOK 3 [] 0).2.1 (by decide) emptyCrlTree rfl⟩,
   (C8_der_exactly_one adapterOK 3 [] 0).2.2⟩

/-- C3 (amended): gnutls_x509_crl_list_import2 wraps the fixed-capacity
entry point with default initial capacity 1024 and passes the strict flag on
that first call; when the first call reports GNUTLS_E_SHORT_MEMORY_BUFFER the
handle array is reallocated to the reported capacity and the import retried
exactly once — with the caller-supplied flags, not the strict flag; otherwise
no second call is made, so there is at most one regrowth-and-retry per call. -/
theorem C3_import2_single_retry (A : Adapter) (data : List Nat) (format : Fmt)
    (flags : Nat) :
    ((gnutls_x509_crl_list_import2 A data format flags).calls.length ≤ 2) ∧
    ((gnutls_x509_crl_list_import2 A data format flags).calls.head? =
       some (1024, GNUTLS_X509_CRT_LIST_IMPORT_FAIL_IF_EXCEED)) ∧
    ((gnutls_x509_crl_list_import A 1024 data format
        GNUTLS_X509_CRT_LIST_IMPORT_FAIL_IF_EXCEED).ret =
       GNUTLS_E_SHORT_MEMORY_BUFFER →
       (gnutls_x509_crl_list_import2 A data format flags).calls =
         [(1024, GNUTLS_X509_CRT_LIST_IMPORT_FAIL_IF_EXCEED),
          ((gnutls_x509_crl_list_import A 1024 data format
             GNUTLS_X509_CRT_LIST_IMPORT_FAIL_IF_EXCEED).crl_max, flags)]) ∧
    ((gnutls_x509_crl_list_import A 1024 data format
        GNUTLS_X509_CRT_LIST_IMPORT_FAIL_IF_EXCEED).ret ≠
       GNUTLS_E_SHORT_MEMORY_BUFFER →
       (gnutls_x509_crl_list_import2 A data format flags).calls.length = 1) := by
  refine ⟨?_, ?_, ?_, ?_⟩
  · simp only [gnutls_x509_crl_list_import2]
    split
    · split <;> simp
    · split <;> simp
  · simp only [gnutls_x509_crl_list_import2]
    split
    · split <;> rfl
    · split <;> rfl
  · intro h
    simp only [gnutls_x509_crl_list_import2]
    rw [if_pos h]
    split <;> rfl
  · intro h
    simp only [gnutls_x509_crl_list_import2]
    rw [if_neg h]
    split <;> rfl

/-- Witness for C3 at a concrete input that does trigger the regrowth: 1025
back-to-back PEM blocks against the default capacity 1024, caller flags 0. -/
theorem C3_import2_single_retry_witness :
    (gnutls_x509_crl_list_import adapterOK 1024 (blocks 1025) Fmt.pem
       GNUTLS_X509_CRT_LIST_IMPORT_FAIL_IF_EXCEED).ret =
      GNUTLS_E_SHORT_MEMORY_BUFFER ∧
    (gnutls_x509_crl_list_import2 adapterOK (blocks 1025) Fmt.pem 0).calls =
      [(1024, GNUTLS_X509_CRT_LIST_IMPORT_FAIL_IF_EXCEED),
       ((gnutls_x509_crl_list_import adapterOK 1024 (blocks 1025) Fmt.pem
          GNUTLS_X509_CRT_LIST_IMPORT_FAIL_IF_EXCEED).crl_max, 0)] :=
  ⟨by rw [list_import_strict_1025],
   (C3_import2_single_retry adapterOK (blocks 1025) Fmt.pem 0).2.2.1
     (by rw [list_import_strict_1025])⟩

/-- Counterexample to C3 as stated: at 1025 concatenated PEM blocks with
caller flags 0, the wrapper does regrow (first call strict, reports capacity
1025) but the single retry is issued with flags 0, whose
GNUTLS_X509_CRT_LIST_IMPORT_FAIL_IF_EXCEED bit is clear — the retry is not
made "with the strict flag set" as the claim requires. -/
theorem C3_retry_not_strict_counterexample :
    (gnutls_x509_crl_list_import2 adapterOK (blocks 1025) Fmt.pem 0).calls =
      [(1024, 1), (1025, 0)] ∧
    (0 : Nat) &&& GNUTLS_X509_CRT_LIST_IMPORT_FAIL_IF_EXCEED = 0 := by
  constructor
  · simp only [gnutls_x509_crl_list_import2, list_import_strict_1025]
    rw [if_pos (by decide)]
    rw [list_import_nonstrict_1025]
    rw [if_neg (by decide)]
    decide
  · decide

/-- C7: gnutls_x509_crl_get_version returns the encoded zero-based version
integer plus one (for a present, single-byte version field). -/
theorem C7_version_one_based (t : CrlTree) (v : Nat)
    (h : t.version = some ⟨1, [v]⟩) :
    gnutls_x509_crl_get_version (some t) = Int.ofNat v + 1 := by
  simp only [gnutls_x509_crl_get_version, asn1_read_value, crlPathLookup, h,
    asn1_read_value_core]
  norm_num

/-- Witness for C7: an encoded version byte 1 is reported as version 2. -/
theorem C7_version_one_based_witness :
    tVersion1.version = some ⟨1, [1]⟩ ∧
    gnutls_x509_crl_get_version (some tVersion1) = 2 :=
  ⟨rfl, by rw [C7_version_one_based tVersion1 1 rfl]; decide⟩

/-- C9: gnutls_x509_crl_get_crt_count returns 0 (not an error) when the
revokedCertificates sequence is absent, and the entry count when present
(an empty present sequence is the count 0 case). -/
theorem C9_crt_count (t : CrlTree) :
    (t.revokedCount = none → gnutls_x509_crl_get_crt_count (some t) = 0) ∧
    (∀ n, t.revokedCount = some n →
       gnutls_x509_crl_get_crt_count (some t) = Int.ofNat n) := by
  constructor
  · intro h
    simp [gnutls_x509_crl_get_crt_count, asn1_number_of_elements, h,
      ASN1_ELEMENT_NOT_FOUND, ASN1_SUCCESS]
  · intro n h
    simp [gnutls_x509_crl_get_crt_count, asn1_number_of_elements, h, ASN1_SUCCESS]

/-- Witness for C9 at an absent sequence and at a 3-entry sequence. -/
theorem C9_crt_count_witness :
    (emptyCrlTree.revokedCount = none ∧
      gnutls_x509_crl_get_crt_count (some emptyCrlTree) = 0) ∧
    (tRevoked3.revokedCount = some 3 ∧
      gnutls_x509_crl_get_crt_count (some tRevoked3) = 3) :=
  ⟨⟨rfl, (C9_crt_count emptyCrlTree).1 rfl⟩,
   ⟨rfl, (C9_crt_count tRevoked3).2 3 rfl⟩⟩

/-- C5: gnutls_x509_crl_get_signature fails with GNUTLS_E_CERTIFICATE_ERROR
whenever the encoded signature bit length is not divisible by 8 (for every
buffer), and when it is divisible the required size reported through
GNUTLS_E_SHORT_MEMORY_BUFFER is exactly bits/8. -/
theorem C5_signature_alignment (t : CrlTree) (v : Asn1Value)
    (h : t.signature = some v) (buf : Option (List Nat)) (cap : Nat) :
    (v.vlen % 8 ≠ 0 → gnutls_x509_crl_get_signature (some t) buf cap =
       ⟨GNUTLS_E_CERTIFICATE_ERROR, cap, buf⟩) ∧
    (v.vlen % 8 = 0 → cap < v.vlen / 8 →
       gnutls_x509_crl_get_signature (some t) buf cap =
         ⟨GNUTLS_E_SHORT_MEMORY_BUFFER, v.vlen / 8, buf⟩) := by
  constructor
  · intro h8
    simp only [gnutls_x509_crl_get_signature, asn1_read_value, crlPathLookup, h,
      asn1_read_value_core]
    simp [h8]
  · intro h8 hcap
    simp only [gnutls_x509_crl_get_signature, asn1_read_value, crlPathLookup, h,
      asn1_read_value_core]
    simp [h8, hcap]

/-- Witness for C5: a 9-bit signature is a CertificateError; a 16-bit one
reports required size 2 ShortBuffer-style. -/
theorem C5_signature_alignment_witness :
    (tSigOdd.signature = some ⟨9, [1]⟩ ∧ (9 : Nat) % 8 ≠ 0 ∧
      gnutls_x509_crl_get_signature (some tSigOdd) none 0 =
        ⟨GNUTLS_E_CERTIFICATE_ERROR, 0, none⟩) ∧
    (tSigExt.signature = some ⟨16, [170, 187]⟩ ∧ (16 : Nat) % 8 = 0 ∧
      (0 : Nat) < 16 / 8 ∧
      gnutls_x509_crl_get_signature (some tSigExt) none 0 =
        ⟨GNUTLS_E_SHORT_MEMORY_BUFFER, 2, none⟩) :=
  ⟨⟨rfl, by decide,
    (C5_signature_alignment tSigOdd ⟨9, [1]⟩ rfl none 0).1 (by decide)⟩,
   ⟨rfl, by decide, by decide,
    (C5_signature_alignment tSigExt ⟨16, [170, 187]⟩ rfl none 0).2 (by decide)
      (by decide)⟩⟩

/-- C4: for a handle with k extensions, index-addressed access succeeds for
every index below k (gnutls_x509_crl_get_extension_info with a buffer large
enough for the OID; gnutls_x509_crl_get_extension_data with any buffer) and
both return GNUTLS_E_REQUESTED_DATA_NOT_AVAILABLE from index k on, the
designed termination condition of an enumerate-all loop. -/
theorem C4_extension_enumeration (t : CrlTree) (i : Nat) (b : List Nat)
    (cap : Nat) (dbuf : Option (List Nat)) (dcap : Nat) :
    (∀ e, t.crlExtensions.get? i = some e → e.extnID.vbytes.length ≤ cap →
       (gnutls_x509_crl_get_extension_info (some t) i (some b) cap).ret = 0) ∧
    (∀ e, t.crlExtensions.get? i = some e →
       (gnutls_x509_crl_get_extension_data (some t) i dbuf dcap).ret = 0) ∧
    (t.crlExtensions.length ≤ i →
       (gnutls_x509_crl_get_extension_info (some t) i (some b) cap).ret =
         GNUTLS_E_REQUESTED_DATA_NOT_AVAILABLE ∧
       (gnutls_x509_crl_get_extension_data (some t) i dbuf dcap).ret =
         GNUTLS_E_REQUESTED_DATA_NOT_AVAILABLE) := by
  refine ⟨?_, ?_, ?_⟩
  · intro e he hcap
    have hcl : ¬ (10 < (criticalValue e.critical).vbytes.length) := by
      cases e.critical <;> decide
    simp only [gnutls_x509_crl_get_extension_info, asn1_read_value,
      crlPathLookup, Nat.add_sub_cancel, he, Option.map_some',
      asn1_read_value_core]
    rw [if_neg (by omega : ¬ cap < e.extnID.vbytes.length)]
    simp [hcl, ASN1_SUCCESS, ASN1_ELEMENT_NOT_FOUND]
  · intro e he
    simp only [gnutls_x509_crl_get_extension_data, asn1_read_value,
      crlPathLookup, Nat.add_sub_cancel, he, Option.map_some',
      asn1_read_value_core]
    cases dbuf with
    | none => simp [ASN1_MEM_ERROR, ASN1_ELEMENT_NOT_FOUND]
    | some d =>
      by_cases hlt : dcap < e.extnValue.vbytes.length
      · simp [hlt, ASN1_MEM_ERROR, ASN1_ELEMENT_NOT_FOUND]
      · simp [hlt, ASN1_SUCCESS, ASN1_ELEMENT_NOT_FOUND]
  · intro hk
    have hnone : t.crlExtensions.get? i = none := List.get?_eq_none.mpr hk
    constructor
    · simp only [gnutls_x509_crl_get_extension_info, asn1_read_value,
        crlPathLookup, Nat.add_sub_cancel, hnone, Option.map_none',
        asn1_read_value_core]
      simp
    · simp only [gnutls_x509_crl_get_extension_data, asn1_read_value,
        crlPathLookup, Nat.add_sub_cancel, hnone, Option.map_none',
        asn1_read_value_core]
      simp

/-- Witness for C4 on a handle with exactly one extension: index 0 succeeds
for both accessors, index 1 is GNUTLS_E_REQUESTED_DATA_NOT_AVAILABLE. -/
theorem C4_extension_enumeration_witness :
    (tSigExt.crlExtensions.get? 0 =
       some ⟨⟨9, [50, 46, 53, 46, 50, 57, 46, 49, 53]⟩, false, ⟨3, [1, 2, 3]⟩⟩ ∧
     (gnutls_x509_crl_get_extension_info (some tSigExt) 0
        (some (List.replicate 9 0)) 9).ret = 0 ∧
     (gnutls_x509_crl_get_extension_data (some tSigExt) 0 none 0).ret = 0) ∧
    (tSigExt.crlExtensions.length ≤ 1 ∧
     (gnutls_x509_crl_get_extension_info (some tSigExt) 1
        (some (List.replicate 9 0)) 9).ret =
       GNUTLS_E_REQUESTED_DATA_NOT_AVAILABLE ∧
     (gnutls_x509_crl_get_extension_data (some tSigExt) 1 none 0).ret =
       GNUTLS_E_REQUESTED_DATA_NOT_AVAILABLE) :=
  ⟨⟨rfl,
    (C4_extension_enumeration tSigExt 0 (List.replicate 9 0) 9 none 0).1
      ⟨⟨9, [50, 46, 53, 46, 50, 57, 46, 49, 53]⟩, false, ⟨3, [1, 2, 3]⟩⟩ rfl
      (by decide),
    (C4_extension_enumeration tSigExt 0 (List.replicate 9 0) 9 none 0).2.1
      ⟨⟨9, [50, 46, 53, 46, 50, 57, 46, 49, 53]⟩, false, ⟨3, [1, 2, 3]⟩⟩ rfl⟩,
   ⟨by decide,
    ((C4_extension_enumeration tSigExt 1 (List.replicate 9 0) 9 none 0).2.2
      (by decide)).1,
    ((C4_extension_enumeration tSigExt 1 (List.replicate 9 0) 9 none 0).2.2
      (by decide)).2⟩⟩

/-- C6: forms of the Authority Key Identifier extension.  When the decoded AKI
tree carries no plain keyIdentifier (GeneralName/serial form) the plain
accessor returns GNUTLS_E_X509_UNSUPPORTED_EXTENSION; when the extension is
absent, or present with an empty value, both AKI accessors return
GNUTLS_E_REQUESTED_DATA_NOT_AVAILABLE; with a plain keyIdentifier and an
adequate buffer the plain accessor succeeds. -/
theorem C6_aki_forms (A : Adapter) (t : CrlTree) (buf : Option (List Nat))
    (cap seq : Nat) :
    (∀ v cr c2, _gnutls_x509_crl_get_extension t oidAKI 0 = Except.ok (v, cr) →
       v.vbytes ≠ [] → A.akiDecode v.vbytes = Except.ok c2 →
       c2.keyIdentifier = none →
       (gnutls_x509_crl_get_authority_key_id A (some t) buf cap).ret =
         GNUTLS_E_X509_UNSUPPORTED_EXTENSION) ∧
    (t.crlExtensions.filter (fun x => x.extnID.vbytes == oidAKI) = [] →
       (gnutls_x509_crl_get_authority_key_id A (some t) buf cap).ret =
         GNUTLS_E_REQUESTED_DATA_NOT_AVAILABLE ∧
       gnutls_x509_crl_get_authority_key_gn_serial A (some t) seq =
         GNUTLS_E_REQUESTED_DATA_NOT_AVAILABLE) ∧
    (∀ v cr, _gnutls_x509_crl_get_extension t oidAKI 0 = Except.ok (v, cr) →
       v.vbytes = [] →
       (gnutls_x509_crl_get_authority_key_id A (some t) buf cap).ret =
         GNUTLS_E_REQUESTED_DATA_NOT_AVAILABLE ∧
       gnutls_x509_crl_get_authority_key_gn_serial A (some t) seq =
         GNUTLS_E_REQUESTED_DATA_NOT_AVAILABLE) ∧
    (∀ v cr c2 kid b2,
       _gnutls_x509_crl_get_extension t oidAKI 0 = Except.ok (v, cr) →
       v.vbytes ≠ [] → A.akiDecode v.vbytes = Except.ok c2 →
       c2.keyIdentifier = some kid → buf = some b2 → kid.vbytes.length ≤ cap →
       (gnutls_x509_crl_get_authority_key_id A (some t) buf cap).ret = 0) := by
  refine ⟨?_, ?_, ?_, ?_⟩
  · intro v cr c2 hext hne hdec hkid
    have h0 : ¬ (v.vbytes.length = 0) := fun hh => hne (List.length_eq_zero.mp hh)
    simp only [gnutls_x509_crl_get_authority_key_id, _get_authority_key_id,
      hext, h0, if_false, hdec, asn1_read_value_aki, hkid]
    simp [ASN1_VALUE_NOT_FOUND, ASN1_ELEMENT_NOT_FOUND]
  · intro hfilter
    simp only [gnutls_x509_crl_get_authority_key_id,
      gnutls_x509_crl_get_authority_key_gn_serial, _get_authority_key_id,
      _gnutls_x509_crl_get_extension, hfilter, List.get?]
    exact ⟨trivial, trivial⟩
  · intro v cr hext hv
    have h0 : v.vbytes.length = 0 := by rw [hv]; rfl
    simp only [gnutls_x509_crl_get_authority_key_id,
      gnutls_x509_crl_get_authority_key_gn_serial, _get_authority_key_id,
      hext, h0, if_true]
    exact ⟨trivial, trivial⟩
  · intro v cr c2 kid b2 hext hne hdec hkid hbuf hcap
    have h0 : ¬ (v.vbytes.length = 0) := fun hh => hne (List.length_eq_zero.mp hh)
    subst hbuf
    simp only [gnutls_x509_crl_get_authority_key_id, _get_authority_key_id,
      hext, h0, if_false, hdec, asn1_read_value_aki, hkid,
      asn1_read_value_core]
    rw [if_neg (by omega : ¬ cap < kid.vbytes.length)]
    simp [ASN1_SUCCESS, ASN1_VALUE_NOT_FOUND, ASN1_ELEMENT_NOT_FOUND]

/-- Witness for C6 on concrete handles under adapterAKI: GeneralName-only AKI,
absent AKI, empty-valued AKI, and plain-keyIdentifier AKI. -/
theorem C6_aki_forms_witness :
    (adapterAKI.akiDecode [1] = Except.ok ⟨none⟩ ∧
     (gnutls_x509_crl_get_authority_key_id adapterAKI (some tAkiGN) none 0).ret =
       GNUTLS_E_X509_UNSUPPORTED_EXTENSION) ∧
    ((gnutls_x509_crl_get_authority_key_id adapterAKI (some emptyCrlTree) none 0).ret =
       GNUTLS_E_REQUESTED_DATA_NOT_AVAILABLE ∧
     gnutls_x509_crl_get_authority_key_gn_serial adapterAKI (some emptyCrlTree) 0 =
       GNUTLS_E_REQUESTED_DATA_NOT_AVAILABLE) ∧
    ((gnutls_x509_crl_get_authority_key_id adapterAKI (some tAkiEmpty) none 0).ret =
       GNUTLS_E_REQUESTED_DATA_NOT_AVAILABLE ∧
     gnutls_x509_crl_get_authority_key_gn_serial adapterAKI (some tAkiEmpty) 0 =
       GNUTLS_E_REQUESTED_DATA_NOT_AVAILABLE) ∧
    (adapterAKI.akiDecode [2] = Except.ok ⟨some ⟨1, [9]⟩⟩ ∧
     (gnutls_x509_crl_get_authority_key_id adapterAKI (some tAkiKID)
        (some [0]) 1).ret = 0) :=
  ⟨⟨rfl,
    (C6_aki_forms adapterAKI tAkiGN none 0 0).1 ⟨1, [1]⟩ false ⟨none⟩ rfl
      (by decide) rfl rfl⟩,
   (C6_aki_forms adapterAKI emptyCrlTree none 0 0).2.1 rfl,
   (C6_aki_forms adapterAKI tAkiEmpty none 0 0).2.2.1 ⟨0, []⟩ false rfl rfl,
   ⟨rfl,
    (C6_aki_forms adapterAKI tAkiKID (some [0]) 1 0).2.2.2 ⟨1, [2]⟩ false
      ⟨some ⟨1, [9]⟩⟩ ⟨1, [9]⟩ [0] rfl (by decide) rfl rfl rfl (by decide)⟩⟩

/-- Counterexample to C2 as stated: on a valid handle whose extension 0 has a
3-byte value, gnutls_x509_crl_get_extension_data called with a 2-byte buffer
returns 0 (success), not GNUTLS_E_SHORT_MEMORY_BUFFER, with the size
out-parameter set to the required 3 and no byte copied — the source compares
the libtasn1 code with `< 0`, and ASN1_MEM_ERROR is positive. -/
theorem C2_extension_data_not_shortbuffer :
    gnutls_x509_crl_get_extension_data (some tSigExt) 0 (some [9, 9]) 2 =
      ⟨0, 3, some [9, 9]⟩ ∧
    (0 : Int) ≠ GNUTLS_E_SHORT_MEMORY_BUFFER := by
  constructor
  · decide
  · decide

/-- C2 (amended): the size-negotiation law as the source actually implements
it.  gnutls_x509_crl_get_signature: a buffer smaller than the required L =
bits/8 (including a NULL buffer with declared size 0 < L) yields
GNUTLS_E_SHORT_MEMORY_BUFFER with the size out-parameter set to exactly L and
the caller's buffer untouched; a buffer of at least L succeeds and copies
exactly L bytes over the prefix, but leaves the size out-parameter at the
caller-supplied value instead of setting it to L.
gnutls_x509_crl_get_extension_data: a NULL or too-small buffer returns 0
(success), not ShortBuffer, with the size out-parameter set to the required
length and no byte copied; an adequate buffer succeeds and copies.
gnutls_x509_crl_get_number: the caller's buffer is zeroed up to the supplied
capacity before any check, so a failing call (here: extension absent) leaves
the buffer zeroed rather than untouched. -/
theorem C2_size_negotiation_actual (t : CrlTree) (v : Asn1Value) (b : List Nat)
    (e : CrlExt) (i : Nat) (d : List Nat)
    (hs : t.signature = some v) (h8 : v.vlen % 8 = 0)
    (hl : v.vbytes.length = v.vlen / 8)
    (he : t.crlExtensions.get? i = some e)
    (hev : e.extnValue.vlen = e.extnValue.vbytes.length) :
    (b.length < v.vlen / 8 →
       gnutls_x509_crl_get_signature (some t) (some b) b.length =
         ⟨GNUTLS_E_SHORT_MEMORY_BUFFER, v.vlen / 8, some b⟩) ∧
    (0 < v.vlen / 8 →
       gnutls_x509_crl_get_signature (some t) none 0 =
         ⟨GNUTLS_E_SHORT_MEMORY_BUFFER, v.vlen / 8, none⟩) ∧
    (v.vlen / 8 ≤ b.length →
       gnutls_x509_crl_get_signature (some t) (some b) b.length =
         ⟨0, b.length, some (v.vbytes ++ b.drop (v.vlen / 8))⟩) ∧
    (d.length < e.extnValue.vbytes.length →
       gnutls_x509_crl_get_extension_data (some t) i (some d) d.length =
         ⟨0, e.extnValue.vbytes.length, some d⟩) ∧
    (gnutls_x509_crl_get_extension_data (some t) i none 0 =
       ⟨0, e.extnValue.vbytes.length, none⟩) ∧
    (e.extnValue.vbytes.length ≤ d.length →
       gnutls_x509_crl_get_extension_data (some t) i (some d) d.length =
         ⟨0, e.extnValue.vbytes.length,
          some (e.extnValue.vbytes ++ d.drop e.extnValue.vbytes.length)⟩) ∧
    (t.crlExtensions.filter (fun x => x.extnID.vbytes == oidCRLNumber) = [] →
       gnutls_x509_crl_get_number (some t) (some b) b.length =
         ⟨GNUTLS_E_REQUESTED_DATA_NOT_AVAILABLE, b.length,
          some (List.replicate b.length 0)⟩) := by
  refine ⟨?_, ?_, ?_, ?_, ?_, ?_, ?_⟩
  · intro hcap
    simp only [gnutls_x509_crl_get_signature, asn1_read_value, crlPathLookup,
      hs, asn1_read_value_core]
    simp [h8, hcap]
  · intro hpos
    simp only [gnutls_x509_crl_get_signature, asn1_read_value, crlPathLookup,
      hs, asn1_read_value_core]
    simp [h8, hpos]
  · intro hcap
    simp only [gnutls_x509_crl_get_signature, asn1_read_value, crlPathLookup,
      hs, asn1_read_value_core]
    rw [if_neg (by simp [ASN1_MEM_ERROR])]
    rw [if_neg (by omega : ¬ v.vlen % 8 ≠ 0)]
    rw [if_neg (by omega : ¬ b.length < v.vlen / 8)]
    rw [if_neg (by omega : ¬ v.vlen / 8 < v.vbytes.length)]
    rw [hl]
    simp [ASN1_SUCCESS]
  · intro hcap
    simp only [gnutls_x509_crl_get_extension_data, asn1_read_value,
      crlPathLookup, Nat.add_sub_cancel, he, Option.map_some',
      asn1_read_value_core]
    rw [if_pos hcap]
    rw [hev]
    simp [ASN1_MEM_ERROR, ASN1_ELEMENT_NOT_FOUND]
  · simp only [gnutls_x509_crl_get_extension_data, asn1_read_value,
      crlPathLookup, Nat.add_sub_cancel, he, Option.map_some',
      asn1_read_value_core]
    rw [hev]
    simp [ASN1_MEM_ERROR, ASN1_ELEMENT_NOT_FOUND]
  · intro hcap
    simp only [gnutls_x509_crl_get_extension_data, asn1_read_value,
      crlPathLookup, Nat.add_sub_cancel, he, Option.map_some',
      asn1_read_value_core]
    rw [if_neg (by omega : ¬ d.length < e.extnValue.vbytes.length)]
    rw [hev]
    simp [ASN1_SUCCESS, ASN1_ELEMENT_NOT_FOUND]
  · intro hfilter
    simp only [gnutls_x509_crl_get_number, _gnutls_x509_crl_get_extension,
      hfilter, List.get?]

/-- Witness for the amended C2 on a handle with a 16-bit signature and one
3-byte extension value: short call reports L = 2 untouched; adequate call
copies 2 bytes but leaves the size at 3; extension_data with NULL buffer
returns 0 with size 3; get_number on an absent CRL Number zeroes the buffer. -/
theorem C2_size_negotiation_actual_witness :
    ((1 : Nat) < 2 ∧
      gnutls_x509_crl_get_signature (some tSigExt) (some [7]) 1 =
        ⟨GNUTLS_E_SHORT_MEMORY_BUFFER, 2, some [7]⟩) ∧
    ((2 : Nat) ≤ 3 ∧
      gnutls_x509_crl_get_signature (some tSigExt) (some [7, 7, 7]) 3 =
        ⟨0, 3, some [170, 187, 7]⟩) ∧
    (gnutls_x509_crl_get_extension_data (some tSigExt) 0 none 0 =
      ⟨0, 3, none⟩) ∧
    (gnutls_x509_crl_get_number (some tSigExt) (some [7]) 1 =
      ⟨GNUTLS_E_REQUESTED_DATA_NOT_AVAILABLE, 1, some [0]⟩) :=
  ⟨⟨by decide,
    (C2_size_negotiation_actual tSigExt ⟨16, [170, 187]⟩ [7]
      ⟨⟨9, [50, 46, 53, 46, 50, 57, 46, 49, 53]⟩, false, ⟨3, [1, 2, 3]⟩⟩ 0 []
      rfl (by decide) (by decide) rfl rfl).1 (by decide)⟩,
   ⟨by decide,
    (C2_size_negotiation_actual tSigExt ⟨16, [170, 187]⟩ [7, 7, 7]
      ⟨⟨9, [50, 46, 53, 46, 50, 57, 46, 49, 53]⟩, false, ⟨3, [1, 2, 3]⟩⟩ 0 []
      rfl (by decide) (by decide) rfl rfl).2.2.1 (by decide)⟩,
   (C2_size_negotiation_actual tSigExt ⟨16, [170, 187]⟩ [7]
      ⟨⟨9, [50, 46, 53, 46, 50, 57, 46, 49, 53]⟩, false, ⟨3, [1, 2, 3]⟩⟩ 0 []
      rfl (by decide) (by decide) rfl rfl).2.2.2.2.1,
   (C2_size_negotiation_actual tSigExt ⟨16, [170, 187]⟩ [7]
      ⟨⟨9, [50, 46, 53, 46, 50, 57, 46, 49, 53]⟩, false, ⟨3, [1, 2, 3]⟩⟩ 0 []
      rfl (by decide) (by decide) rfl rfl).2.2.2.2.2.2 (by decide)⟩
